import Mathlib

/-!
Verification of the subprocess execution core of the mcp-helmfile server
(`src/server.py`): the `execute_helmfile` tool, its timeout / graduated
termination state machine, and the `sync_helmfile` command composer.

The Python code is shallowly embedded: the outcome of the one spawned OS
process is abstracted into a `ProcessBehavior` (its runtime, decoded output
streams, exit code, and the behavior of the termination sequence on the
timeout path), and `execute_helmfile` is a pure function from the command,
the optional timeout and a spawn environment to the structured result
dictionary, paired with a trace of the lifecycle events in the order the
source performs them.
-/

namespace McpHelmfile

/-- The four error codes of the structured error dictionary in `server.py`. -/
inductive ErrorCode
  | TIMEOUT
  | TERMINATION_ERROR
  | COMMAND_ERROR
  | INTERNAL_ERROR
deriving DecidableEq, Repr

/-- The returned dictionary: either `{"status": "success", "output": ...}` or
`{"status": "error", "error": {"code": ..., "message": ...}}`. -/
inductive ExecResult
  | success (output : String)
  | error (code : ErrorCode) (message : String)
deriving DecidableEq, Repr

/-- Behavior of `asyncio.wait_for(process.wait(), timeout=5)` in the case
where the handler's `await process.terminate()` did not raise:
the process exits within the 5-second grace period, or the wait times out
(recording whether `process.returncode is None` at that point and how the
subsequent `await process.kill()` behaves), or the wait raises an
exception other than `asyncio.TimeoutError`.

Reachability: on a real `asyncio.subprocess.Process` this whole state is
dead code — `Process.terminate()` is a synchronous method returning `None`,
so `await process.terminate()` raises `TypeError` before the grace wait (see
`awaitNoneMessage`), and `Process.kill()` is likewise synchronous, so a
`killErr = none` outcome cannot occur on a real process either.  These
states are realizable only under test doubles that replace `terminate` /
`kill` / `wait` with awaitables, as the repository's tests do with
`AsyncMock`. -/
inductive GraceOutcome
  | exited
  | timedOut (returncodeIsNone : Bool) (killErr : Option String)
  | failed (msg : String)
deriving DecidableEq, Repr

/-- Behavior of `asyncio.wait_for(process.communicate(), timeout=actual_timeout)`:
it completes with decoded stdout/stderr and a return code, or it raises
`asyncio.TimeoutError` (in which case the termination sequence runs:
`termErr` is the exception `await process.terminate()` raises, if any, and
`grace` describes the bounded wait / kill that follow), or it raises some
other exception.  On a real process `termErr` is not free: the `await` of
the `None` returned by the synchronous `Process.terminate()` deterministically
raises `TypeError` (see `RealProcess`); `termErr = none` arises only under
awaitable test doubles. -/
inductive CommOutcome
  | completed (stdout stderr : String) (returncode : Int)
  | timedOut (termErr : Option String) (grace : GraceOutcome)
  | failed (msg : String)
deriving DecidableEq, Repr

/-- Behavior of `asyncio.create_subprocess_shell`: a process whose life
unfolds as `CommOutcome`, or a spawn exception. -/
inductive SpawnOutcome
  | ok (comm : CommOutcome)
  | failed (msg : String)
deriving DecidableEq, Repr

/-- Lifecycle events of one invocation, in source order: the shell command
line handed to `create_subprocess_shell`, the `process.terminate()` call,
the grace-period `wait_for(process.wait(), 5)`, and the `process.kill()`
call. -/
inductive Event
  | spawn (cmd : String)
  | terminateSig
  | graceWait
  | kill
deriving DecidableEq, Repr

/-- A spawn environment: what the OS does for a given shell command line
under a given effective timeout. -/
abbrev Env := String → Int → SpawnOutcome

/-- `actual_timeout = actual_timeout or 300`: an absent timeout, or the
Python-falsy value `0`, defaults to 300 seconds. -/
def actualTimeoutOf (timeout : Option Int) : Int :=
  match timeout with
  | none => 300
  | some t => if t = 0 then 300 else t

/-- `if not command.strip().startswith("helmfile"): command = f"helmfile {command}"` -/
def effectiveCommand (command : String) : String :=
  if command.trim.startsWith ("helmfile") then command else "helmfile " ++ command

/-- `f"Command timed out after {actual_timeout} seconds"` -/
def timeoutMessage (t : Int) : String :=
  s!"Command timed out after {t} seconds"

/-- `f"Failed to terminate process: {str(e)}"` -/
def terminationMessage (e : String) : String :=
  s!"Failed to terminate process: {e}"

/-- The `except asyncio.TimeoutError:` handler of `execute_helmfile`:
terminate, wait up to 5 seconds, kill if still running; any exception from
that sequence yields `TERMINATION_ERROR`, otherwise the `TIMEOUT` result is
returned.  The second component is the list of lifecycle events performed.

The `termErr = none` branches translate the source lines after
`await process.terminate()`, but on a real asyncio process that `await`
deterministically raises `TypeError` (`Process.terminate()` is synchronous
and returns `None`), so only the `termErr = some` branch is reachable in
production: the grace wait, the kill, and the `TIMEOUT` return are dead
code there, reachable only when the process methods are replaced by
awaitable test doubles. -/
def handleTimeout (t : Int) (termErr : Option String) (grace : GraceOutcome) :
    ExecResult × List Event :=
  match termErr with
  | some e => (.error .TERMINATION_ERROR (terminationMessage e), [.terminateSig])
  | none =>
    match grace with
    | .exited =>
        (.error .TIMEOUT (timeoutMessage t), [.terminateSig, .graceWait])
    | .timedOut returncodeIsNone killErr =>
        if returncodeIsNone then
          match killErr with
          | some e =>
              (.error .TERMINATION_ERROR (terminationMessage e),
               [.terminateSig, .graceWait, .kill])
          | none =>
              (.error .TIMEOUT (timeoutMessage t),
               [.terminateSig, .graceWait, .kill])
        else
          (.error .TIMEOUT (timeoutMessage t), [.terminateSig, .graceWait])
    | .failed e =>
        (.error .TERMINATION_ERROR (terminationMessage e),
         [.terminateSig, .graceWait])

/-- The body of `execute_helmfile`, instrumented with the lifecycle trace:
default the timeout, prefix the command with `helmfile ` when needed, spawn,
race the process against the deadline, and map every outcome to a structured
result.  Every exception is caught: spawn failures and unclassified failures
fall into the outer `except Exception` and become `INTERNAL_ERROR`. -/
def executeTrace (command : String) (timeout : Option Int) (env : Env) :
    ExecResult × List Event :=
  let t := actualTimeoutOf timeout
  let cmd := effectiveCommand command
  match env cmd t with
  | .failed e => (.error .INTERNAL_ERROR e, [.spawn cmd])
  | .ok comm =>
    match comm with
    | .completed stdout stderr returncode =>
        (if returncode = 0 then .success stdout.trim
         else .error .COMMAND_ERROR stderr.trim,
         [.spawn cmd])
    | .timedOut termErr grace =>
        ((handleTimeout t termErr grace).1,
         .spawn cmd :: (handleTimeout t termErr grace).2)
    | .failed e => (.error .INTERNAL_ERROR e, [.spawn cmd])

/-- `execute_helmfile(command, timeout)`: the structured result dictionary. -/
def execute_helmfile (command : String) (timeout : Option Int) (env : Env) :
    ExecResult :=
  (executeTrace command timeout env).1

/-- One concrete process: how long it runs, its decoded streams and exit
code if allowed to finish, and how its termination sequence behaves if the
deadline fires first. -/
structure ProcessBehavior where
  runtime : Nat
  stdout : String
  stderr : String
  returncode : Int
  termErr : Option String
  grace : GraceOutcome
deriving DecidableEq, Repr

/-- `wait_for(communicate, timeout=t)` on a concrete process: completes when
the runtime fits within the deadline, otherwise the timeout fires and the
termination sequence's behavior takes over. -/
def runProcess (p : ProcessBehavior) (t : Int) : CommOutcome :=
  if (p.runtime : Int) ≤ t then .completed p.stdout p.stderr p.returncode
  else .timedOut p.termErr p.grace

/-- The spawn environment in which every command line spawns the one
concrete process `p`. -/
def procEnv (p : ProcessBehavior) : Env :=
  fun _ t => .ok (runProcess p t)

/-- The message of the `TypeError` that CPython raises when `await` is
applied to `None` — which is what `await process.terminate()` and
`await process.kill()` do, since `asyncio.subprocess.Process.terminate()`
and `.kill()` are synchronous methods returning `None`. -/
def awaitNoneMessage : String :=
  "object NoneType can't be used in 'await' expression"

/-- A process behavior as realized by a real asyncio subprocess rather than
a test double: the terminate step of the timeout handler deterministically
raises the `TypeError` from awaiting the `None` returned by the synchronous
`Process.terminate()`. -/
def RealProcess (p : ProcessBehavior) : Prop :=
  p.termErr = some awaitNoneMessage

/-- The command string built by `sync_helmfile`:
`["helmfile", "sync", "-f", helmfile_path]`, extended with
`["-n", namespace.strip()]` only when the namespace is provided, truthy,
and truthy after stripping, then joined with spaces. -/
def syncCommand (helmfile_path : String) (ns : Option String) : String :=
  let parts := ["helmfile", "sync", "-f", helmfile_path]
  let parts :=
    match ns with
    | none => parts
    | some s => if !s.isEmpty && !s.trim.isEmpty then parts ++ ["-n", s.trim] else parts
  String.intercalate " " parts

/-- `sync_helmfile(helmfile_path, namespace, timeout)`: builds the sync
command and delegates to `execute_helmfile` with the same timeout. -/
def sync_helmfile (helmfile_path : String) (ns : Option String)
    (timeout : Option Int) (env : Env) : ExecResult :=
  execute_helmfile (syncCommand helmfile_path ns) timeout env

/-- `"success"` or `"error"`: the `status` field of the returned dictionary. -/
def statusOf : ExecResult → String
  | .success _ => "success"
  | .error _ _ => "error"

/-- The `code` field of the error dictionary, when the result is an error. -/
def codeOf : ExecResult → Option ErrorCode
  | .success _ => none
  | .error c _ => some c

end McpHelmfile

namespace McpHelmfile

set_option maxRecDepth 8000

theorem terminationMessage_eq (e : String) :
    terminationMessage e = "Failed to terminate process: " ++ e := by
  show "Failed to terminate process: " ++ e ++ "" = _
  rw [String.append_empty]

/-- Claim C1: a command whose process completes within the timeout and exits
with status 0 yields the success result whose output is the decoded stdout
with leading and trailing whitespace removed. -/
theorem execute_success_output (command : String) (timeout : Option Int) (p : ProcessBehavior)
    (hrun : (p.runtime : Int) ≤ actualTimeoutOf timeout)
    (hrc : p.returncode = 0) :
    execute_helmfile command timeout (procEnv p) = ExecResult.success p.stdout.trim := by
  simp [execute_helmfile, executeTrace, procEnv, runProcess, hrun, hrc]

theorem execute_success_output_witness :
    execute_helmfile ("version") none
        (procEnv ⟨1, " helmfile version v0.156.0 ", "", 0, none, GraceOutcome.exited⟩)
      = ExecResult.success (" helmfile version v0.156.0 ".trim) :=
  execute_success_output ("version") none
    ⟨1, " helmfile version v0.156.0 ", "", 0, none, GraceOutcome.exited⟩ (by decide) rfl

/-- Claim C2, evaluated at the failing input: the claim says a timed-out
command yields the TIMEOUT error with message
`Command timed out after {timeout} seconds`, but on every real process the
timeout handler raises `TypeError` at `await process.terminate()`
(`Process.terminate()` is synchronous and returns `None`), so for
`sleep 10` under a 1-second timeout the code returns the TERMINATION_ERROR
result carrying that `TypeError` text and never the TIMEOUT result —
regardless of how gracefully the process would have exited. -/
theorem execute_timeout_real_termination_error (p : ProcessBehavior)
    (hreal : RealProcess p)
    (hrun : actualTimeoutOf (some 1) < (p.runtime : Int)) :
    execute_helmfile ("sleep 10") (some 1) (procEnv p)
      = ExecResult.error ErrorCode.TERMINATION_ERROR
          ("Failed to terminate process: " ++ awaitNoneMessage)
    ∧ execute_helmfile ("sleep 10") (some 1) (procEnv p)
        ≠ ExecResult.error ErrorCode.TIMEOUT
            (timeoutMessage (actualTimeoutOf (some 1))) := by
  have ht : p.termErr = some awaitNoneMessage := hreal
  have h1 : execute_helmfile ("sleep 10") (some 1) (procEnv p)
      = ExecResult.error ErrorCode.TERMINATION_ERROR
          ("Failed to terminate process: " ++ awaitNoneMessage) := by
    simp [execute_helmfile, executeTrace, procEnv, runProcess, not_le.mpr hrun, ht,
      handleTimeout, terminationMessage_eq]
  refine ⟨h1, ?_⟩
  rw [h1]
  simp

theorem execute_timeout_real_termination_error_witness :
    execute_helmfile ("sleep 10") (some 1)
        (procEnv ⟨10, "", "", 0, some awaitNoneMessage, GraceOutcome.exited⟩)
      = ExecResult.error ErrorCode.TERMINATION_ERROR
          ("Failed to terminate process: " ++ awaitNoneMessage)
    ∧ execute_helmfile ("sleep 10") (some 1)
        (procEnv ⟨10, "", "", 0, some awaitNoneMessage, GraceOutcome.exited⟩)
      ≠ ExecResult.error ErrorCode.TIMEOUT (timeoutMessage (actualTimeoutOf (some 1))) :=
  execute_timeout_real_termination_error
    ⟨10, "", "", 0, some awaitNoneMessage, GraceOutcome.exited⟩ rfl (by decide)

/-- Claim C3: a command whose process completes within the timeout and exits
with a non-zero status yields the COMMAND_ERROR result whose message is the
decoded stderr with leading and trailing whitespace removed. -/
theorem execute_command_error (command : String) (timeout : Option Int) (p : ProcessBehavior)
    (hrun : (p.runtime : Int) ≤ actualTimeoutOf timeout)
    (hrc : p.returncode ≠ 0) :
    execute_helmfile command timeout (procEnv p)
      = ExecResult.error ErrorCode.COMMAND_ERROR p.stderr.trim := by
  simp [execute_helmfile, executeTrace, procEnv, runProcess, hrun, hrc]

theorem execute_command_error_witness :
    execute_helmfile ("list") none
        (procEnv ⟨1, "", " no releases found \n", 1, none, GraceOutcome.exited⟩)
      = ExecResult.error ErrorCode.COMMAND_ERROR (" no releases found \n".trim) :=
  execute_command_error ("list") none
    ⟨1, "", " no releases found \n", 1, none, GraceOutcome.exited⟩ (by decide) (by decide)

/-- Claim C4: when the timeout has fired and the termination procedure itself
raises (either `terminate` throws, or `terminate` succeeds and the bounded
grace-period wait throws an error other than a timeout), the result is the
TERMINATION_ERROR error carrying the failure detail, the TIMEOUT result is
not returned, and no forceful kill is attempted after the failure. -/
theorem execute_termination_error_priority (command : String) (timeout : Option Int)
    (p : ProcessBehavior) (e : String)
    (hrun : actualTimeoutOf timeout < (p.runtime : Int))
    (hfail : p.termErr = some e ∨ (p.termErr = none ∧ p.grace = GraceOutcome.failed e)) :
    execute_helmfile command timeout (procEnv p)
      = ExecResult.error ErrorCode.TERMINATION_ERROR ("Failed to terminate process: " ++ e)
    ∧ Event.kill ∉ (executeTrace command timeout (procEnv p)).2 := by
  rcases hfail with h | ⟨h1, h2⟩
  · simp [execute_helmfile, executeTrace, procEnv, runProcess, not_le.mpr hrun,
      h, handleTimeout, terminationMessage_eq]
  · simp [execute_helmfile, executeTrace, procEnv, runProcess, not_le.mpr hrun,
      h1, h2, handleTimeout, terminationMessage_eq]

theorem execute_termination_error_priority_witness :
    execute_helmfile ("sleep 10") (some 1)
        (procEnv ⟨10, "", "", 0, some "boom", GraceOutcome.exited⟩)
      = ExecResult.error ErrorCode.TERMINATION_ERROR ("Failed to terminate process: " ++ "boom")
    ∧ Event.kill ∉ (executeTrace ("sleep 10") (some 1)
        (procEnv ⟨10, "", "", 0, some "boom", GraceOutcome.exited⟩)).2 :=
  execute_termination_error_priority ("sleep 10") (some 1)
    ⟨10, "", "", 0, some "boom", GraceOutcome.exited⟩ "boom" (by decide) (Or.inl rfl)

/-- Claim C5, evaluated against the code's real behavior: the claimed
grace-period wait and single forceful kill with a TIMEOUT result are
unreachable.  On every real process the `TypeError` raised by
`await process.terminate()` precedes the grace wait, so no kill event and no
grace-wait event ever occur in the trace, the TIMEOUT code is never
returned, and a timed-out invocation (such as `sleep 10` under a 1-second
timeout) returns the TERMINATION_ERROR result instead. -/
theorem execute_kill_unreachable (p : ProcessBehavior) (c : String) (u : Option Int)
    (hreal : RealProcess p) :
    Event.kill ∉ (executeTrace c u (procEnv p)).2
    ∧ Event.graceWait ∉ (executeTrace c u (procEnv p)).2
    ∧ codeOf (execute_helmfile c u (procEnv p)) ≠ some ErrorCode.TIMEOUT
    ∧ (actualTimeoutOf u < (p.runtime : Int) →
        execute_helmfile c u (procEnv p)
          = ExecResult.error ErrorCode.TERMINATION_ERROR
              ("Failed to terminate process: " ++ awaitNoneMessage)) := by
  have ht : p.termErr = some awaitNoneMessage := hreal
  by_cases hle : (p.runtime : Int) ≤ actualTimeoutOf u
  · refine ⟨?_, ?_, ?_, ?_⟩
    · simp [executeTrace, procEnv, runProcess, hle]
    · simp [executeTrace, procEnv, runProcess, hle]
    · by_cases h0 : p.returncode = 0 <;>
        simp [execute_helmfile, executeTrace, procEnv, runProcess, hle, h0, codeOf]
    · intro hlt
      exact absurd hle (not_le.mpr hlt)
  · refine ⟨?_, ?_, ?_, ?_⟩
    · simp [executeTrace, procEnv, runProcess, hle, ht, handleTimeout]
    · simp [executeTrace, procEnv, runProcess, hle, ht, handleTimeout]
    · simp [execute_helmfile, executeTrace, procEnv, runProcess, hle, ht, handleTimeout, codeOf]
    · intro hlt
      simp [execute_helmfile, executeTrace, procEnv, runProcess, hle, ht, handleTimeout,
        terminationMessage_eq]

theorem execute_kill_unreachable_witness :
    Event.kill ∉ (executeTrace ("sleep 10") (some 1)
        (procEnv ⟨10, "", "", 0, some awaitNoneMessage, GraceOutcome.exited⟩)).2
    ∧ Event.graceWait ∉ (executeTrace ("sleep 10") (some 1)
        (procEnv ⟨10, "", "", 0, some awaitNoneMessage, GraceOutcome.exited⟩)).2
    ∧ execute_helmfile ("sleep 10") (some 1)
        (procEnv ⟨10, "", "", 0, some awaitNoneMessage, GraceOutcome.exited⟩)
      = ExecResult.error ErrorCode.TERMINATION_ERROR
          ("Failed to terminate process: " ++ awaitNoneMessage) := by
  have h := execute_kill_unreachable
    ⟨10, "", "", 0, some awaitNoneMessage, GraceOutcome.exited⟩ ("sleep 10") (some 1) rfl
  exact ⟨h.1, h.2.1, h.2.2.2 (by decide)⟩

/-- Claim C6: spawn failures and unclassified failures during spawn, await or
resolve are converted into the INTERNAL_ERROR result carrying the failure
text, and the caller always receives a well-formed result that is either the
success variant or an error variant whose code is one of TIMEOUT,
TERMINATION_ERROR, COMMAND_ERROR, INTERNAL_ERROR. -/
theorem execute_internal_error_catchall (command : String) (timeout : Option Int)
    (env : Env) (e : String)
    (hfail : env (effectiveCommand command) (actualTimeoutOf timeout) = SpawnOutcome.failed e
           ∨ env (effectiveCommand command) (actualTimeoutOf timeout)
               = SpawnOutcome.ok (CommOutcome.failed e)) :
    execute_helmfile command timeout env = ExecResult.error ErrorCode.INTERNAL_ERROR e
    ∧ (∀ (env2 : Env),
        (∃ out, execute_helmfile command timeout env2 = ExecResult.success out)
        ∨ (∃ c m, execute_helmfile command timeout env2 = ExecResult.error c m
             ∧ (c = ErrorCode.TIMEOUT ∨ c = ErrorCode.TERMINATION_ERROR
                ∨ c = ErrorCode.COMMAND_ERROR ∨ c = ErrorCode.INTERNAL_ERROR))) := by
  constructor
  · rcases hfail with h | h <;> simp [execute_helmfile, executeTrace, h]
  · intro env2
    rcases hr : execute_helmfile command timeout env2 with out | ⟨c, m⟩
    · exact Or.inl ⟨out, rfl⟩
    · refine Or.inr ⟨c, m, rfl, ?_⟩
      cases c <;> simp

theorem execute_internal_error_catchall_witness :
    execute_helmfile ("version") none
        (fun _ _ => SpawnOutcome.failed ("No such file or directory"))
      = ExecResult.error ErrorCode.INTERNAL_ERROR ("No such file or directory") :=
  (execute_internal_error_catchall ("version") none
    (fun _ _ => SpawnOutcome.failed ("No such file or directory"))
    ("No such file or directory") (Or.inl rfl)).1

/-- Claim C7: when the caller supplies no timeout, or the Python-falsy value
0, the effective timeout used for the deadline and the timeout message is
300 seconds; a positive supplied timeout is used unchanged. -/
theorem execute_timeout_defaulting (command : String) (env : Env) (t : Int) (ht : 0 < t) :
    execute_helmfile command none env = execute_helmfile command (some 300) env
    ∧ execute_helmfile command (some 0) env = execute_helmfile command (some 300) env
    ∧ actualTimeoutOf none = 300
    ∧ actualTimeoutOf (some 0) = 300
    ∧ actualTimeoutOf (some t) = t := by
  refine ⟨rfl, rfl, rfl, rfl, ?_⟩
  simp [actualTimeoutOf, ht.ne']

theorem execute_timeout_defaulting_witness :
    execute_helmfile ("list") none (procEnv ⟨1, "ok", "", 0, none, GraceOutcome.exited⟩)
      = execute_helmfile ("list") (some 300)
          (procEnv ⟨1, "ok", "", 0, none, GraceOutcome.exited⟩)
    ∧ execute_helmfile ("list") (some 0) (procEnv ⟨1, "ok", "", 0, none, GraceOutcome.exited⟩)
      = execute_helmfile ("list") (some 300)
          (procEnv ⟨1, "ok", "", 0, none, GraceOutcome.exited⟩)
    ∧ actualTimeoutOf none = 300
    ∧ actualTimeoutOf (some 0) = 300
    ∧ actualTimeoutOf (some 60) = 60 :=
  execute_timeout_defaulting ("list") (procEnv ⟨1, "ok", "", 0, none, GraceOutcome.exited⟩)
    60 (by decide)

/-- Claim C8: the sync composition builds the command
`helmfile sync -f <path> -n <trimmed namespace>` when the namespace is
present and non-empty after trimming, omits the `-n` flag entirely when the
namespace is absent or empty after trimming, and delegates to
`execute_helmfile` with the same timeout. -/
theorem sync_composes_command (helmfile_path : String) (ns : Option String)
    (timeout : Option Int) (env : Env) (s : String) :
    sync_helmfile helmfile_path ns timeout env
      = execute_helmfile (syncCommand helmfile_path ns) timeout env
    ∧ (ns = none → syncCommand helmfile_path ns = "helmfile sync -f " ++ helmfile_path)
    ∧ (ns = some s → s.trim = "" →
        syncCommand helmfile_path ns = "helmfile sync -f " ++ helmfile_path)
    ∧ (ns = some s → s.trim ≠ "" →
        syncCommand helmfile_path ns
          = "helmfile sync -f " ++ helmfile_path ++ " -n " ++ s.trim) := by
  refine ⟨rfl, ?_, ?_, ?_⟩
  · rintro rfl
    simp [syncCommand, String.intercalate, String.intercalate.go]
  · rintro rfl h
    have hs : s.trim.isEmpty := by simp [String.isEmpty_iff, h]
    simp [syncCommand, hs, String.intercalate, String.intercalate.go]
  · rintro rfl h
    have hs : ¬ s.trim.isEmpty := by simp [String.isEmpty_iff, h]
    have hs2 : ¬ s.isEmpty := by
      intro hc
      rw [String.isEmpty_iff] at hc
      subst hc
      exact h (by
        simp +decide [String.trim, Substring.trim, String.toSubstring,
          Substring.takeWhileAux, Substring.takeRightWhileAux, String.endPos,
          String.utf8ByteSize, String.utf8ByteSize.go, String.extract])
    simp [syncCommand, hs, hs2, String.intercalate, String.intercalate.go]
    congr 1
    rw [String.append_assoc, String.append_assoc]
    have hm : (" " : String) ++ ("-n" ++ " ") = " -n " := by decide
    rw [hm]

theorem sync_composes_command_witness :
    sync_helmfile ("/tmp/x.yaml") (some "ns1") (some 60)
        (procEnv ⟨1, "", "", 0, none, GraceOutcome.exited⟩)
      = execute_helmfile (syncCommand ("/tmp/x.yaml") (some "ns1")) (some 60)
          (procEnv ⟨1, "", "", 0, none, GraceOutcome.exited⟩)
    ∧ syncCommand ("/tmp/x.yaml") (some "ns1")
        = "helmfile sync -f " ++ "/tmp/x.yaml" ++ " -n " ++ "ns1".trim := by
  have h := sync_composes_command ("/tmp/x.yaml") (some "ns1") (some 60)
    (procEnv ⟨1, "", "", 0, none, GraceOutcome.exited⟩) "ns1"
  refine ⟨h.1, h.2.2.2 rfl ?_⟩
  simp +decide [String.trim, Substring.trim, String.toSubstring,
    Substring.takeWhileAux, Substring.takeRightWhileAux,
    String.prev, String.utf8PrevAux, String.get, String.utf8GetAux,
    String.next, String.endPos, String.utf8ByteSize,
    String.utf8ByteSize.go, String.extract]

/-- Claim C9: the status and the error code of the result depend only on the
subprocess outcome shape (runtime, exit code, termination behavior), not on
the output texts: two runs of the same command and timeout whose processes
behave the same, possibly with different stdout/stderr texts, produce the
same status and the same error code. -/
theorem execute_status_code_deterministic (command : String) (timeout : Option Int)
    (p q : ProcessBehavior)
    (hrt : p.runtime = q.runtime) (hrc : p.returncode = q.returncode)
    (hterm : p.termErr = q.termErr) (hgrace : p.grace = q.grace) :
    statusOf (execute_helmfile command timeout (procEnv p))
      = statusOf (execute_helmfile command timeout (procEnv q))
    ∧ codeOf (execute_helmfile command timeout (procEnv p))
      = codeOf (execute_helmfile command timeout (procEnv q)) := by
  by_cases hle : (p.runtime : Int) ≤ actualTimeoutOf timeout
  · by_cases h0 : p.returncode = 0 <;>
      simp [execute_helmfile, executeTrace, procEnv, runProcess, hle, hrt ▸ hle,
        h0, hrc ▸ h0, statusOf, codeOf, ← hrt, ← hrc]
  · simp [execute_helmfile, executeTrace, procEnv, runProcess, hle, hrt ▸ hle,
      ← hrt, ← hterm, ← hgrace]

theorem execute_status_code_deterministic_witness :
    statusOf (execute_helmfile ("status") none
        (procEnv ⟨1, "run one", "", 0, none, GraceOutcome.exited⟩))
      = statusOf (execute_helmfile ("status") none
          (procEnv ⟨1, "run two", "", 0, none, GraceOutcome.exited⟩))
    ∧ codeOf (execute_helmfile ("status") none
        (procEnv ⟨1, "run one", "", 0, none, GraceOutcome.exited⟩))
      = codeOf (execute_helmfile ("status") none
          (procEnv ⟨1, "run two", "", 0, none, GraceOutcome.exited⟩)) :=
  execute_status_code_deterministic ("status") none
    ⟨1, "run one", "", 0, none, GraceOutcome.exited⟩
    ⟨1, "run two", "", 0, none, GraceOutcome.exited⟩ rfl rfl rfl rfl

/-- Claim C10: the shell command line handed to the spawned process is the
input command prefixed with `helmfile ` exactly when the stripped input does
not already start with `helmfile`, and the input command unchanged
otherwise. -/
theorem execute_command_prefixed (command : String) (timeout : Option Int) (env : Env) :
    (executeTrace command timeout env).2.head?
      = some (Event.spawn (effectiveCommand command))
    ∧ (command.trim.startsWith ("helmfile") = false →
        effectiveCommand command = "helmfile " ++ command)
    ∧ (command.trim.startsWith ("helmfile") = true →
        effectiveCommand command = command) := by
  refine ⟨?_, ?_, ?_⟩
  · rcases h : env (effectiveCommand command) (actualTimeoutOf timeout) with comm | e
    · rcases comm with ⟨out, err, rc⟩ | ⟨te, g⟩ | e <;> simp [executeTrace, h]
    · simp [executeTrace, h]
  · intro h
    simp [effectiveCommand, h]
  · intro h
    simp [effectiveCommand, h]

theorem execute_command_prefixed_witness :
    (executeTrace ("version") none
        (procEnv ⟨1, "", "", 0, none, GraceOutcome.exited⟩)).2.head?
      = some (Event.spawn (effectiveCommand ("version")))
    ∧ effectiveCommand ("version") = "helmfile " ++ "version" := by
  have h := execute_command_prefixed ("version") none
    (procEnv ⟨1, "", "", 0, none, GraceOutcome.exited⟩)
  refine ⟨h.1, h.2.1 ?_⟩
  simp +decide [String.startsWith, String.trim, Substring.trim, String.toSubstring,
    Substring.takeWhileAux, Substring.takeRightWhileAux,
    String.prev, String.utf8PrevAux, String.get, String.utf8GetAux,
    String.next, String.endPos, String.utf8ByteSize,
    String.utf8ByteSize.go, String.extract, String.extract.go₁, String.extract.go₂,
    Substring.take, Substring.beq, Substring.hasBeq, Substring.toString,
    String.substrEq, String.substrEq.loop, String.length, Substring.nextn, Substring.next,
    Char.utf8Size]

end McpHelmfile
